import Mathlib

/-!
Verification of `src/web/config.js` of the MeetingNotes repository.

The artifact is a single static script that performs one global assignment:

  window.CONFIG = { API_BASE_URL: 'https://meetingnotes.onrender.com' };

We embed the JavaScript value universe needed by that script, the script
itself as a list of top-level statements, the page (`window`) state on which
it executes, and the read operation consumers perform afterwards.  A small
URL parser lets us state the claims about the URL structure of the literal.
-/

namespace MeetingNotes

/-- Primitive JavaScript values that can appear as a field of the config
object in this artifact: a string, a number, `null`, or `undefined`.
`undefinedV` is also what a property lookup yields when the property is
absent. -/
inductive JSPrim where
  | str : String → JSPrim
  | num : Int → JSPrim
  | nullV : JSPrim
  | undefinedV : JSPrim
deriving DecidableEq

/-- A JavaScript object literal, as a list of own properties (name, value). -/
def JSObj : Type := List (String × JSPrim)

instance : DecidableEq JSObj := by
  unfold JSObj
  infer_instance

/-- A top-level statement of the script.  `config.js` contains exactly one
kind of statement: assigning an object literal to a property of `window`
(a global). -/
inductive Stmt where
  | assignGlobal : String → JSObj → Stmt
deriving DecidableEq

/-- The string literal written at line 7 of `src/web/config.js`. -/
def API_BASE_URL_literal : String := "https://meetingnotes.onrender.com"

/-- The whole of `src/web/config.js` as the list of its top-level
statements: a single assignment of an object literal with one property. -/
def configScript : List Stmt :=
  [Stmt.assignGlobal "CONFIG" [("API_BASE_URL", JSPrim.str API_BASE_URL_literal)]]

/-- The page state: the globals installed on `window` that hold object
values, as a name-to-object map (later assignments shadow earlier ones). -/
structure Window where
  globals : List (String × JSObj)
deriving DecidableEq

/-- Before any script runs, no global of this artifact exists. -/
def initialWindow : Window := ⟨[]⟩

/-- Install a global on `window` (JavaScript property assignment). -/
def setGlobal (w : Window) (n : String) (v : JSObj) : Window :=
  ⟨(n, v) :: w.globals⟩

/-- Read a global from `window`; `none` models the property being absent. -/
def getGlobal (w : Window) (n : String) : Option JSObj :=
  (w.globals.find? (fun p => p.1 == n)).map Prod.snd

/-- Property lookup on an object: an absent property reads as `undefined`. -/
def lookupField (o : JSObj) (n : String) : JSPrim :=
  match o.find? (fun p => p.1 == n) with
  | some p => p.2
  | none => JSPrim.undefinedV

/-- Execute one top-level statement of the script. -/
def execStmt (w : Window) : Stmt → Window
  | Stmt.assignGlobal n v => setGlobal w n v

/-- Execute a script: its statements in order. -/
def execScript (w : Window) (s : List Stmt) : Window :=
  s.foldl execStmt w

/-- The page state after the configuration asset has loaded. -/
def afterLoad : Window := execScript initialWindow configScript

/-- Errors a read can raise: dereferencing a field of `undefined`
(`window.CONFIG.API_BASE_URL` when `CONFIG` was never assigned). -/
inductive JsError where
  | typeError : JsError
deriving DecidableEq

/-- The read operation: evaluate `window.CONFIG.API_BASE_URL`.  It raises a
TypeError if the `CONFIG` global is absent, and otherwise yields the value
of the `API_BASE_URL` property (`undefined` if that property is absent). -/
def get_api_base_url (w : Window) : Except JsError JSPrim :=
  match getGlobal w "CONFIG" with
  | none => Except.error JsError.typeError
  | some o => Except.ok (lookupField o "API_BASE_URL")

/-- The operations the artifact offers after loading.  The script defines
no function and no mutating entry point, so the only operation is the read
of the configured value. -/
inductive PageOp where
  | readApiBaseUrl : PageOp
deriving DecidableEq

/-- Run one page operation: the resulting page state and the value read. -/
def runOp (w : Window) : PageOp → Window × Except JsError JSPrim
  | PageOp.readApiBaseUrl => (w, get_api_base_url w)

/-- Run a sequence of page operations, threading the page state. -/
def execOps (w : Window) (ops : List PageOp) : Window :=
  ops.foldl (fun w op => (runOp w op).1) w

/-- Is this JavaScript value a string? -/
def isStringValue : JSPrim → Bool
  | JSPrim.str _ => true
  | _ => false

/-- A URL split into scheme, host, and path (path includes any query or
fragment suffix; it is empty when nothing follows the host). -/
structure ParsedUrl where
  scheme : String
  host : String
  path : String
deriving DecidableEq

/-- Split a character list at the first occurrence of the literal
separator `://`: the characters before it and the characters after it. -/
def schemeSplit : List Char → Option (List Char × List Char)
  | ':' :: '/' :: '/' :: rest => some ([], rest)
  | c :: rest => (schemeSplit rest).map (fun p => (c :: p.1, p.2))
  | [] => none

/-- Parse a string as an absolute URL: a non-empty scheme, `://`, a
non-empty host running up to the first `/`, `?` or `#`, and the remainder
as the path. -/
def parseUrl (s : String) : Option ParsedUrl :=
  match schemeSplit s.toList with
  | none => none
  | some (sch, rest) =>
    if sch.isEmpty then none
    else
      let host := rest.takeWhile (fun c => !(c == '/' || c == '?' || c == '#'))
      let path := rest.drop host.length
      if host.isEmpty then none
      else some ⟨String.mk sch, String.mk host, String.mk path⟩

/-- Does the string parse as an absolute URL with scheme `http` or
`https`? -/
def isAbsoluteHttpUrl (s : String) : Bool :=
  match parseUrl s with
  | some p => p.scheme == "http" || p.scheme == "https"
  | none => false

/-- No page operation changes the page state (lemma shared by several
theorems below). -/
theorem runOp_fst (w : Window) (op : PageOp) : (runOp w op).1 = w := by
  cases op
  rfl

/-- A sequence of page operations leaves the page state unchanged. -/
theorem execOps_eq (w : Window) (ops : List PageOp) : execOps w ops = w := by
  induction ops generalizing w with
  | nil => rfl
  | cons op ops ih =>
    show execOps ((runOp w op).1) ops = w
    rw [runOp_fst, ih]

/-- C1: with the deployed literal value, reading `window.CONFIG.API_BASE_URL`
after the asset loads returns exactly the string
`https://meetingnotes.onrender.com`, and parsing that string as a URL yields
scheme `https`, host `meetingnotes.onrender.com`, and an empty path. -/
theorem read_returns_literal_and_parses :
    get_api_base_url afterLoad =
      Except.ok (JSPrim.str "https://meetingnotes.onrender.com") ∧
    parseUrl "https://meetingnotes.onrender.com" =
      some ⟨"https", "meetingnotes.onrender.com", ""⟩ := by
  exact ⟨rfl, by decide⟩

/-- C2: after the configuration asset loads, the global `CONFIG` record
exists on `window` and exposes an `API_BASE_URL` field (its value is a
defined one, not the absent-property `undefined`). -/
theorem config_global_present :
    ∃ o, getGlobal afterLoad "CONFIG" = some o ∧
      lookupField o "API_BASE_URL" ≠ JSPrim.undefinedV := by
  refine ⟨[("API_BASE_URL", JSPrim.str API_BASE_URL_literal)], rfl, ?_⟩
  decide

/-- C3: in every page state reachable after the asset loads (by any
sequence of the artifact's operations), reading the `API_BASE_URL` field
yields a string value — never null, undefined, or a number. -/
theorem api_base_url_always_string (ops : List PageOp) :
    ∃ v, get_api_base_url (execOps afterLoad ops) = Except.ok v ∧
      isStringValue v = true := by
  rw [execOps_eq]
  exact ⟨JSPrim.str API_BASE_URL_literal, rfl, rfl⟩

/-- C3 witness: the reachable-state invariant instantiated at the empty
operation sequence. -/
theorem api_base_url_always_string_at_nil :
    ∃ v, get_api_base_url (execOps afterLoad []) = Except.ok v ∧
      isStringValue v = true :=
  api_base_url_always_string []

/-- C4: if the string read from the `API_BASE_URL` field after load is
non-empty, it parses as a syntactically valid absolute URL whose scheme
is `http` or `https`. -/
theorem api_base_url_valid_if_nonempty (v : String)
    (h : get_api_base_url afterLoad = Except.ok (JSPrim.str v))
    (_hne : v ≠ "") :
    isAbsoluteHttpUrl v = true := by
  rw [show get_api_base_url afterLoad =
        Except.ok (JSPrim.str API_BASE_URL_literal) from rfl] at h
  injection h with h1
  injection h1 with h2
  rw [← h2]
  decide

/-- C4 witness: the deployed value is read after load, is non-empty, and is
a valid absolute http(s) URL. -/
theorem api_base_url_valid_if_nonempty_witness :
    isAbsoluteHttpUrl "https://meetingnotes.onrender.com" = true :=
  api_base_url_valid_if_nonempty "https://meetingnotes.onrender.com" rfl
    (by decide)

/-- C5: the read operation takes only the page state, and after the asset
loads it always succeeds — in every reachable state it returns
`Except.ok` with the configured string verbatim, never an error value. -/
theorem get_api_base_url_never_fails (ops : List PageOp) :
    get_api_base_url (execOps afterLoad ops) =
      Except.ok (JSPrim.str API_BASE_URL_literal) ∧
    ∀ e, get_api_base_url (execOps afterLoad ops) ≠ Except.error e := by
  rw [execOps_eq]
  exact ⟨rfl, fun e h => Except.noConfusion h⟩

/-- C5 witness: instantiated at the empty operation sequence. -/
theorem get_api_base_url_never_fails_at_nil :
    get_api_base_url (execOps afterLoad []) =
      Except.ok (JSPrim.str API_BASE_URL_literal) ∧
    ∀ e, get_api_base_url (execOps afterLoad []) ≠ Except.error e :=
  get_api_base_url_never_fails []

/-- C6: any two reads of `API_BASE_URL` within the same page lifetime —
each performed after an arbitrary sequence of the artifact's operations —
yield the identical value; no mutation occurs between the reads. -/
theorem reads_stable (ops1 ops2 : List PageOp) :
    (runOp (execOps afterLoad ops1) PageOp.readApiBaseUrl).2 =
    (runOp (execOps afterLoad ops2) PageOp.readApiBaseUrl).2 := by
  rw [execOps_eq, execOps_eq]

/-- C6 witness: instantiated at the empty sequence and a one-read
sequence. -/
theorem reads_stable_at_nil_and_read :
    (runOp (execOps afterLoad []) PageOp.readApiBaseUrl).2 =
    (runOp (execOps afterLoad [PageOp.readApiBaseUrl])
      PageOp.readApiBaseUrl).2 :=
  reads_stable [] [PageOp.readApiBaseUrl]

/-- C7: the configuration is immutable after definition: every operation
the artifact offers leaves the page state — in particular the `CONFIG`
global — unchanged, so reading has no side effect on any state. -/
theorem config_immutable (w : Window) (op : PageOp) :
    (runOp w op).1 = w ∧
    getGlobal (runOp w op).1 "CONFIG" = getGlobal w "CONFIG" := by
  refine ⟨runOp_fst w op, ?_⟩
  rw [runOp_fst]

/-- C7 witness: instantiated at the post-load page state and the read
operation. -/
theorem config_immutable_at_afterLoad :
    (runOp afterLoad PageOp.readApiBaseUrl).1 = afterLoad ∧
    getGlobal (runOp afterLoad PageOp.readApiBaseUrl).1 "CONFIG" =
      getGlobal afterLoad "CONFIG" :=
  config_immutable afterLoad PageOp.readApiBaseUrl

/-- C8: the entire persisted artifact is a single global assignment of the
shape `CONFIG = \x7b API_BASE_URL: <string literal> \x7d` — one statement,
no other assignment and no nested schema. -/
theorem artifact_is_single_assignment :
    configScript =
      [Stmt.assignGlobal "CONFIG"
        [("API_BASE_URL", JSPrim.str "https://meetingnotes.onrender.com")]] ∧
    configScript.length = 1 :=
  ⟨rfl, rfl⟩

/-- C9: the `CONFIG` global installed by the script has exactly one own
property, named `API_BASE_URL`. -/
theorem config_single_field :
    ∃ o, getGlobal afterLoad "CONFIG" = some o ∧
      o.map Prod.fst = ["API_BASE_URL"] ∧ o.length = 1 := by
  exact ⟨[("API_BASE_URL", JSPrim.str API_BASE_URL_literal)], rfl, rfl, rfl⟩

/-- C10: the deployed literal is a non-empty string whose last character is
not a slash, so the empty-string "use the page's own origin" mode is never
active in this artifact as shipped. -/
theorem literal_nonempty_no_trailing_slash :
    API_BASE_URL_literal ≠ "" ∧
    API_BASE_URL_literal.toList.getLast? ≠ some '/' := by
  decide

end MeetingNotes
